import Mathlib

/-!
# Verification of the heatwave account-unfreezing tool

A shallow embedding of `src/index.ts` of the `broxus/heatwave` repository.
The tool reconstructs the pre-freeze state of frozen Everscale accounts and
redeploys them through a relay ("microwave") contract.

External collaborators (the RPC provider, the state-archive HTTP service,
the filesystem cache directory and the message-submission facility) are
modelled as a record of pure functions (`Env`); the on-disk cache is a map
from address strings to raw byte lists.  Node `Buffer` base64
encoding/decoding is modelled explicitly since the cache stores raw bytes
while the pipeline passes base64 strings around.
-/

/-- Account addresses are kept in their canonical string form
(`workchain:hex`), as the TypeScript code does. -/
abbrev Addr := String

/-- One historical transaction of an account, as returned by
`provider.getTransactions`: the logical-time key `id.lt` plus the account
status before (`origStatus`) and after (`endStatus`) the transaction.
Statuses are the provider's strings (`"active"`, `"frozen"`, ...). -/
structure Tx where
  lt : String
  origStatus : String
  endStatus : String
deriving DecidableEq, Repr

/-- The slice of `provider.getFullContractState` used by the tool: an uninterpreted
state payload plus an optional code hash. -/
structure ContractState where
  boc : String
  codeHash : Option String
deriving DecidableEq, Repr

/-- Result record of `provider.computeStorageFee`: the account status at the
reference timestamp and an optional accrued storage-fee debt (a decimal
string, absent when the provider reports none). -/
structure FeeResult where
  accountStatus : String
  storageFeeDebt : Option String
deriving DecidableEq, Repr

/-- The `FrozenAccount` record of `index.ts`: address, base64 state blob and
storage-fee debt (decimal string). -/
structure FrozenAccount where
  address : Addr
  state : String
  storageFeeDebt : String
deriving DecidableEq, Repr

/-- The account capability produced by `guessGiverAccount`: one constructor
per recognized funding-account protocol of the standalone client. -/
inductive Account where
  | walletV3 (address : Addr)
  | highloadWalletV2 (address : Addr)
  | everWallet (address : Addr)
  | giver (address : Addr) (publicKey : String)
deriving DecidableEq, Repr

/-- Pipeline stages of the per-account processing, used to record the order
in which `prepareStates` consults its collaborators. -/
inductive Stage where
  | fetchState
  | estimateDebt
  | cacheLookup
  | locate
  | reconstruct
  | cacheStore
deriving DecidableEq, Repr

/- ## Base64 (Node `Buffer.from(s, "base64")` / `buf.toString("base64")`) -/

/-- The base64 alphabet in table order. -/
def base64Alphabet : List Char :=
  "ABCDEFGHIJKLMNOPQRSTUVWXYZabcdefghijklmnopqrstuvwxyz0123456789+/".data

/-- Character for a 6-bit value. -/
def sextetChar (v : Nat) : Char := base64Alphabet.getD v 'A'

/-- The 6-bit value of an alphabet character (its index in the table). -/
def charSextet (c : Char) : Nat := base64Alphabet.indexOf c

/-- Whether a character belongs to the base64 alphabet.  Node's decoder
skips every character outside the alphabet (including `=` padding). -/
def isBase64Char (c : Char) : Bool := base64Alphabet.contains c

/-- Encode bytes three at a time into four base64 characters, with `=`
padding for a trailing group of one or two bytes. -/
def encodeGroups : List Nat → List Char
  | b1 :: b2 :: b3 :: rest =>
    sextetChar (b1 / 4) :: sextetChar (b1 % 4 * 16 + b2 / 16) ::
      sextetChar (b2 % 16 * 4 + b3 / 64) :: sextetChar (b3 % 64) :: encodeGroups rest
  | [b1, b2] =>
    [sextetChar (b1 / 4), sextetChar (b1 % 4 * 16 + b2 / 16), sextetChar (b2 % 16 * 4), '=']
  | [b1] =>
    [sextetChar (b1 / 4), sextetChar (b1 % 4 * 16), '=', '=']
  | [] => []

/-- Models `buf.toString("base64")`: canonical padded base64 of a byte list. -/
def base64Encode (bs : List Nat) : String := String.mk (encodeGroups bs)

/-- Decode 6-bit values four at a time into three bytes; a trailing group of
three (resp. two) values yields two bytes (resp. one), and a lone trailing
value is dropped, as Node does. -/
def decodeSextets : List Nat → List Nat
  | s1 :: s2 :: s3 :: s4 :: rest =>
    (s1 * 4 + s2 / 16) :: (s2 % 16 * 16 + s3 / 4) :: (s3 % 4 * 64 + s4) :: decodeSextets rest
  | [s1, s2, s3] => [s1 * 4 + s2 / 16, s2 % 16 * 16 + s3 / 4]
  | [s1, s2] => [s1 * 4 + s2 / 16]
  | _ => []

/-- Models `Buffer.from(s, "base64")`: forgiving base64 decoding — characters
outside the alphabet (in particular `=`) are skipped, then complete 6-bit
groups are assembled into bytes. -/
def base64Decode (s : String) : List Nat :=
  decodeSextets ((s.data.filter isBase64Char).map charSextet)

/- ## The on-disk state cache (one file per address under the tmp dir) -/

/-- The cache directory: an address-keyed map from address (the file name) to the
raw bytes of the file. -/
def Cache := Addr → Option (List Nat)

/-- Models `fs.writeFile(statePath, Buffer.from(state, "base64"))`: create or
overwrite the file for `addr` with the decoded bytes of the blob. -/
def Cache.put (cache : Cache) (addr : Addr) (blob : String) : Cache :=
  fun a => if a = addr then some (base64Decode blob) else cache a

/-- The cache read path of `prepareStates`: skipped entirely when
`ignoreCache` is set, otherwise `fs.stat` + `fs.readFile` +
`data.toString("base64")` on the file for `addr`. -/
def Cache.tryGet (cache : Cache) (ignoreCache : Bool) (addr : Addr) : Option String :=
  if ignoreCache then none else (cache addr).map base64Encode

/- ## Constants and small helpers of `index.ts` -/

/-- The constant `TIMESTAMP_BIAS`: one hour of forward clock bias, in seconds. -/
def TIMESTAMP_BIAS : Nat := 3600

/-- The constant `TX_FEE = BigInt(100000000)`: the fixed relay ("microwave") fee in nano
EVERs attached on top of debt and target balance. -/
def TX_FEE : Nat := 100000000

/-- The funding amount of one redeploy submission:
`BigInt(item.storageFeeDebt) + BigInt(parsedArgs.targetBalance) + TX_FEE`.
Debt and target balance are non-negative decimal strings in the code; their
`BigInt` values are modelled as naturals. -/
def fundingAmount (storageFeeDebt targetBalance : Nat) : Nat :=
  storageFeeDebt + targetBalance + TX_FEE

/-- Models `BigInt(s)` for the non-negative decimal strings the provider hands
out. -/
def parseBigNat (s : String) : Nat :=
  s.foldl (fun n c => n * 10 + (c.toNat - 48)) 0

/-- Models `address.toString().startsWith("-1")`, the masterchain test used when
computing storage fees. -/
def isMasterchain (a : Addr) : Bool := a.startsWith "-1"

/-- Claim C6: the funding amount attached to a redeploy submission is
exactly `d + t + TX_FEE` with `TX_FEE = 100000000`, and is strictly greater
than the target balance `t` even when the debt `d` is zero. -/
theorem funding_amount_exact (d t : Nat) :
    fundingAmount d t = d + t + 100000000 ∧ t < fundingAmount d t ∧ t < fundingAmount 0 t := by
  unfold fundingAmount TX_FEE
  omega

/- ## The freeze-point locator (the pagination loop of `applyState`) -/

/-- The inner `for` loop of the locator over one page of transactions:
a transaction whose end status is not `"frozen"` aborts the whole walk with
`Account not frozen`; the first transaction whose origin status is not
`"frozen"` ends the walk successfully with its logical-time key; otherwise
the page is scanned to its end (`.ok none` = fall through to the next
page). -/
def scanBatch : List Tx → Except String (Option String)
  | [] => .ok none
  | tx :: rest =>
    if tx.endStatus ≠ "frozen" then .error "Account not frozen"
    else if tx.origStatus ≠ "frozen" then .ok (some tx.lt)
    else scanBatch rest

/-- The `outer: while (true)` pagination loop of `applyState`, over the
sequence of pages the provider returns (the last page is the one whose
continuation token is null).  Exhausting all pages without an answer fails
with `Freeze transaction not found`. -/
def locateFreezeLt : List (List Tx) → Except String String
  | [] => .error "Freeze transaction not found"
  | batch :: pages =>
    match scanBatch batch with
    | .error e => .error e
    | .ok (some lt) => .ok lt
    | .ok none => locateFreezeLt pages

/-- The same scan over the flattened newest-first transaction history,
ignoring page boundaries.  Used to state properties of the walk. -/
def scanHistory : List Tx → Except String String
  | [] => .error "Freeze transaction not found"
  | tx :: rest =>
    if tx.endStatus ≠ "frozen" then .error "Account not frozen"
    else if tx.origStatus ≠ "frozen" then .ok tx.lt
    else scanHistory rest

/- ## The external environment -/

/-- The external collaborators of the tool, as pure functions: the chain
provider (`getFullContractState`, `computeStorageFee`, `getTransactions`
pages), the state-archive HTTP service (`fetchApply` returns the
`accountBoc` of a 2xx response or the error text of a non-2xx one),
`nt.parseFullAccountStateInit`, the relay submission (`send` covers the
`deploy` call plus the trace wait and returns the transaction hash), the
credential file, the address list file, the pre-existing cache directory
and the process clock. -/
structure Env where
  clockTimeMs : Nat
  getFullContractState : Addr → Option ContractState
  computeStorageFee : ContractState → Bool → Nat → FeeResult
  pages : Addr → List (List Tx)
  fetchApply : Addr → String → Except String String
  parseFullAccountStateInit : String → Option String
  send : Addr → String → Nat → Except String String
  loadKeys : String → Except String String
  readAddressList : String → List Addr
  initialCache : Cache

/-- The reference timestamp computed once per run:
`TIMESTAMP_BIAS + ~~(clock.time / 1000)`. -/
def runTimestamp (env : Env) : Nat := TIMESTAMP_BIAS + env.clockTimeMs / 1000

/- ## `applyState`: locate the freeze point and reconstruct the state -/

/-- The `applyState` closure of `prepareStates`: locate the freeze
transaction, post `{account, lt}` to the state-archive service, decode the
returned `accountBoc` into a state-init blob (`Empty state` when the parser
returns null).  The second component records which pipeline stages ran. -/
def applyState (env : Env) (address : Addr) : Except String String × List Stage :=
  match locateFreezeLt (env.pages address) with
  | .error e => (.error e, [.locate])
  | .ok freezeTransactionLt =>
    match env.fetchApply address freezeTransactionLt with
    | .error e => (.error e, [.locate, .reconstruct])
    | .ok fullState =>
      match env.parseFullAccountStateInit fullState with
      | none => (.error "Empty state", [.locate, .reconstruct])
      | some stateInit => (.ok stateInit, [.locate, .reconstruct])

/- ## `guessGiverAccount` -/

/-- Code hash of the WalletV3 funding protocol. -/
def WALLET_V3_CODE_HASH : String :=
  "84dafa449f98a6987789ba232358072bc0f76dc4524002a5d0918b9a75d2d599"

/-- Code hash of the HighloadWalletV2 funding protocol. -/
def HIGHLOAD_WALLET_V2_CODE_HASH : String :=
  "0b3a887aeacd2a7d40bb5550bc9253156a029065aefb6d6b583735d58da9d5be"

/-- Code hash of the EverWallet funding protocol. -/
def EVER_WALLET_CODE_HASH : String :=
  "3ba6528ab2694c118180aa3bd10dd19ff400b909ab4dcf58fc69925b2c7b12a6"

/-- Code hash of the Giver funding protocol. -/
def GIVER_CODE_HASH : String :=
  "ccbfc821853aa641af3813ebd477e26818b51e4ca23e5f6d34509215aa7123d9"

/-- Models `guessGiverAccount`: classify the funding account by the code hash of
its on-chain state; absent state, missing code hash and unrecognized hashes
are fatal errors. -/
def guessGiverAccount (state? : Option ContractState) (address : Addr)
    (publicKey : String) : Except String Account :=
  match state? with
  | none => .error "Giver account not found"
  | some state =>
    match state.codeHash with
    | none => .error "Giver account is uninit"
    | some codeHash =>
      if codeHash = WALLET_V3_CODE_HASH then .ok (.walletV3 address)
      else if codeHash = HIGHLOAD_WALLET_V2_CODE_HASH then .ok (.highloadWalletV2 address)
      else if codeHash = EVER_WALLET_CODE_HASH then .ok (.everWallet address)
      else if codeHash = GIVER_CODE_HASH then .ok (.giver address publicKey)
      else .error "Unknown contract"

/- ## `prepareStates` -/

/-- The body of the per-account `try` block of `prepareStates`: fetch the
full contract state (`Account is uninit` when absent), compute the storage
fee at the reference timestamp (`Account is not frozen` unless the status
is `"frozen"` or `"nonexist"`, null debt defaulting to `"0"`), consult the
cache unless `ignoreCache` is set, and on a miss reconstruct via
`applyState` and write the decoded bytes back to the cache.  Returns the
outcome, the cache directory after the step and the stages that ran. -/
def prepareOne (env : Env) (ignoreCache : Bool) (ts : Nat) (cache : Cache)
    (address : Addr) : Except String FrozenAccount × Cache × List Stage :=
  match env.getFullContractState address with
  | none => (.error "Account is uninit", cache, [.fetchState])
  | some accountState =>
    let account := env.computeStorageFee accountState (isMasterchain address) ts
    if account.accountStatus ≠ "frozen" ∧ account.accountStatus ≠ "nonexist" then
      (.error "Account is not frozen", cache, [.fetchState, .estimateDebt])
    else
      let storageFeeDebt := account.storageFeeDebt.getD "0"
      match Cache.tryGet cache ignoreCache address with
      | some cachedState =>
        (.ok ⟨address, cachedState, storageFeeDebt⟩, cache,
          [.fetchState, .estimateDebt, .cacheLookup])
      | none =>
        let lookupStages : List Stage := if ignoreCache then [] else [.cacheLookup]
        let applied := applyState env address
        match applied.1 with
        | .error msg =>
          (.error msg, cache, [.fetchState, .estimateDebt] ++ lookupStages ++ applied.2)
        | .ok state =>
          (.ok ⟨address, state, storageFeeDebt⟩, Cache.put cache address state,
            [.fetchState, .estimateDebt] ++ lookupStages ++ applied.2 ++ [.cacheStore])

/-- Result of the `prepareStates` loop: the successfully prepared accounts
in input order, the cache directory at the end of the loop, and one
`(address, message)` record per skipped account (the code logs
`Preparing account <address>` followed by `skipping: <message>`). -/
structure PrepareResult where
  states : List FrozenAccount
  cache : Cache
  skipped : List (Addr × String)

/-- The `for (const address of accounts)` loop of `prepareStates`: each
account runs `prepareOne` inside a failure boundary — an error is recorded
with the address and the loop proceeds to the next address. -/
def prepareGo (env : Env) (ignoreCache : Bool) (ts : Nat) :
    Cache → List Addr → PrepareResult
  | cache, [] => ⟨[], cache, []⟩
  | cache, address :: rest =>
    match prepareOne env ignoreCache ts cache address with
    | (.ok account, cache1, _) =>
      let r := prepareGo env ignoreCache ts cache1 rest
      ⟨account :: r.states, r.cache, r.skipped⟩
    | (.error msg, cache1, _) =>
      let r := prepareGo env ignoreCache ts cache1 rest
      ⟨r.states, r.cache, (address, msg) :: r.skipped⟩

/-- Models `prepareStates`: compute the reference timestamp once, then run the
per-account loop over the input list against the pre-existing cache
directory. -/
def prepareStates (env : Env) (accounts : List Addr) (ignoreCache : Bool) : PrepareResult :=
  prepareGo env ignoreCache (runTimestamp env) env.initialCache accounts

/- ## The unfreeze loop of `app` (redeploy submission) -/

/-- The `for (const item of states)` loop at the end of `app`: for each
prepared account, submit `microwave.deploy({dest, state_init})` funded with
`storageFeeDebt + targetBalance + TX_FEE` and wait for the trace to finish.
The loop has no failure boundary: a failed submission propagates out and
aborts the run. -/
def unfreezeContracts (env : Env) (targetBalance : String) :
    List FrozenAccount → Except String (List String)
  | [] => .ok []
  | item :: rest =>
    match env.send item.address item.state
        (fundingAmount (parseBigNat item.storageFeeDebt) (parseBigNat targetBalance)) with
    | .error e => .error e
    | .ok txHash =>
      match unfreezeContracts env targetBalance rest with
      | .error e => .error e
      | .ok txs => .ok (txHash :: txs)

/- ## CLI argument parsing (`parseArgs` inside `app`) -/

/-- A CLI flag value: `--name=value` gives a string, bare `--name` gives the
literal `true`. -/
inductive FlagVal where
  | str (s : String)
  | boolTrue
deriving DecidableEq, Repr

/-- The `Args` record produced by `getArgs`. -/
structure Args where
  positional : List String
  flags : String → Option FlagVal

/-- The validated options `parseArgs` returns. -/
structure ParsedArgs where
  path : String
  giver : String
  sign : String
  ignoreCache : Bool
  targetBalance : String
deriving DecidableEq, Repr

/-- Models `parseSwitch`: a missing flag is `false`, a bare flag is `true`, and a
string value must be `"true"` or `"false"`. -/
def parseSwitch (flags : String → Option FlagVal) (name : String) : Except String Bool :=
  match flags name with
  | some .boolTrue => .ok true
  | some (.str v) =>
    if v ≠ "true" ∧ v ≠ "false" then
      .error ("Expected a boolean value for `" ++ name ++ "`")
    else .ok (v = "true")
  | none => .ok false

/-- Whether a flag value is a string (the `typeof res.giver != "string"`
test of the missing-options check). -/
def isStrFlag : Option FlagVal → Bool
  | some (.str _) => true
  | _ => false

/-- The `Required options not provided` message listing the missing
options, one per indented line. -/
def missingMsg (path? : Option String) (giver? sign? : Option FlagVal) : String :=
  "Required options not provided:\n  " ++ String.intercalate "\n  "
    ((if path? = none then ["path"] else [])
      ++ (if isStrFlag giver? then [] else ["--giver"])
      ++ (if isStrFlag sign? then [] else ["--sign"]))

/-- The `target-balance` value before validation:
`(args.flags["target-balance"] as string | undefined) || "1000000000"`
(a bare flag stays the boolean `true` and fails validation later; an empty
string is falsy and takes the default). -/
def targetBalanceOf (v : Option FlagVal) : FlagVal :=
  match v with
  | some (.str v) => if v = "" then .str "1000000000" else .str v
  | some .boolTrue => .boolTrue
  | none => .str "1000000000"

/- ## `checkAddress` (the giver-address regex) -/

/-- One hexadecimal digit, the `[\da-fA-F]` character class. -/
def isHexDigitChar (c : Char) : Bool :=
  c.isDigit || ('a' ≤ c && c ≤ 'f') || ('A' ≤ c && c ≤ 'F')

/-- The anchored regex `^(?:-1|0):[\da-fA-F]{64}$` over the character list
of the address. -/
def checkAddrChars : List Char → Bool
  | '-' :: '1' :: ':' :: rest => rest.length == 64 && rest.all isHexDigitChar
  | '0' :: ':' :: rest => rest.length == 64 && rest.all isHexDigitChar
  | _ => false

/-- Models `checkAddress`: test the giver address against the address regex. -/
def checkAddress (address : String) : Bool := checkAddrChars address.data

/-- The shape the specification describes for a valid giver address:
workchain `-1` or `0`, a colon, and exactly 64 hexadecimal digits.  Stated
from the specification's words, to be compared with `checkAddress`. -/
def giverAddressShape (s : String) : Prop :=
  ∃ wc hex : String, (wc = "-1" ∨ wc = "0") ∧ s = wc ++ ":" ++ hex
    ∧ hex.length = 64 ∧ hex.data.all isHexDigitChar = true

/-- Models `parseArgs`: parse the ignore-cache switch, check the required options,
validate the giver address, then validate the target balance (whose
`parseInt` result the code discards, so any string passes). -/
def parseArgs (args : Args) : Except String ParsedArgs :=
  match parseSwitch args.flags "ignore-cache" with
  | .error e => .error e
  | .ok ignoreCache =>
    match args.positional.head?, args.flags "giver", args.flags "sign" with
    | some pathArg, some (.str giver), some (.str sign) =>
      if checkAddress giver = false then .error "Invalid giver address"
      else
        match targetBalanceOf (args.flags "target-balance") with
        | .boolTrue => .error "Expected a number value for `target-balance`"
        | .str tb => .ok ⟨pathArg, giver, sign, ignoreCache, tb⟩
    | path?, giver?, sign? => .error (missingMsg path? giver? sign?)

/- ## `app`: the whole run -/

/-- The sequential stages of `app` after argument parsing: load the signing
keys, resolve the giver account, read the address list, prepare the states
(per-account failure boundary) and run the unfreeze loop (no failure
boundary).  Returns the skipped accounts and the submission transaction
hashes on success. -/
def appRun (env : Env) (args : Args) : Except String (List (Addr × String) × List String) :=
  match parseArgs args with
  | .error e => .error e
  | .ok parsedArgs =>
    match env.loadKeys parsedArgs.sign with
    | .error e => .error e
    | .ok publicKey =>
      match guessGiverAccount (env.getFullContractState parsedArgs.giver)
          parsedArgs.giver publicKey with
      | .error e => .error e
      | .ok _giverAccount =>
        let accounts := env.readAddressList parsedArgs.path
        let prepared := prepareStates env accounts parsedArgs.ignoreCache
        match unfreezeContracts env parsedArgs.targetBalance prepared.states with
        | .error e => .error e
        | .ok txs => .ok (prepared.skipped, txs)

/- ## Base64 round-trip lemmas -/

/-- Every character the encoder emits for a 6-bit value is in the
alphabet. -/
theorem isBase64Char_sextetChar : ∀ v < 64, isBase64Char (sextetChar v) = true := by decide

/-- Decoding inverts encoding on 6-bit values. -/
theorem charSextet_sextetChar : ∀ v < 64, charSextet (sextetChar v) = v := by decide

/-- The padding character is skipped by the decoder. -/
theorem isBase64Char_pad : isBase64Char '=' = false := by decide

/-- Decoding the characters the encoder produced recovers the original
bytes, for genuine bytes (each `< 256`). -/
theorem decodeSextets_encodeGroups : ∀ (bs : List Nat), (∀ b ∈ bs, b < 256) →
    decodeSextets (((encodeGroups bs).filter isBase64Char).map charSextet) = bs
  | [], _ => rfl
  | [b1], h => by
    have hb1 : b1 < 256 := h b1 (by simp)
    have e1 := isBase64Char_sextetChar (b1 / 4) (by omega)
    have e2 := isBase64Char_sextetChar (b1 % 4 * 16) (by omega)
    have c1 := charSextet_sextetChar (b1 / 4) (by omega)
    have c2 := charSextet_sextetChar (b1 % 4 * 16) (by omega)
    simp only [encodeGroups, List.filter_cons, e1, e2, isBase64Char_pad, if_true, if_false,
      List.filter_nil, List.map_cons, List.map_nil, c1, c2, decodeSextets, List.cons.injEq,
      and_true]
    omega
  | [b1, b2], h => by
    have hb1 : b1 < 256 := h b1 (by simp)
    have hb2 : b2 < 256 := h b2 (by simp)
    have e1 := isBase64Char_sextetChar (b1 / 4) (by omega)
    have e2 := isBase64Char_sextetChar (b1 % 4 * 16 + b2 / 16) (by omega)
    have e3 := isBase64Char_sextetChar (b2 % 16 * 4) (by omega)
    have c1 := charSextet_sextetChar (b1 / 4) (by omega)
    have c2 := charSextet_sextetChar (b1 % 4 * 16 + b2 / 16) (by omega)
    have c3 := charSextet_sextetChar (b2 % 16 * 4) (by omega)
    simp only [encodeGroups, List.filter_cons, e1, e2, e3, isBase64Char_pad, if_true, if_false,
      List.filter_nil, List.map_cons, List.map_nil, c1, c2, c3, decodeSextets, List.cons.injEq,
      and_true]
    omega
  | b1 :: b2 :: b3 :: b4 :: rest, h => by
    have hb1 : b1 < 256 := h b1 (by simp)
    have hb2 : b2 < 256 := h b2 (by simp)
    have hb3 : b3 < 256 := h b3 (by simp)
    have ih := decodeSextets_encodeGroups (b4 :: rest) (fun b hb => h b (by simp at hb ⊢; tauto))
    have e1 := isBase64Char_sextetChar (b1 / 4) (by omega)
    have e2 := isBase64Char_sextetChar (b1 % 4 * 16 + b2 / 16) (by omega)
    have e3 := isBase64Char_sextetChar (b2 % 16 * 4 + b3 / 64) (by omega)
    have e4 := isBase64Char_sextetChar (b3 % 64) (by omega)
    have c1 := charSextet_sextetChar (b1 / 4) (by omega)
    have c2 := charSextet_sextetChar (b1 % 4 * 16 + b2 / 16) (by omega)
    have c3 := charSextet_sextetChar (b2 % 16 * 4 + b3 / 64) (by omega)
    have c4 := charSextet_sextetChar (b3 % 64) (by omega)
    simp only [encodeGroups, List.filter_cons, e1, e2, e3, e4, if_true, List.map_cons,
      c1, c2, c3, c4, decodeSextets, ih, List.cons.injEq, and_true]
    omega
  | [b1, b2, b3], h => by
    have hb1 : b1 < 256 := h b1 (by simp)
    have hb2 : b2 < 256 := h b2 (by simp)
    have hb3 : b3 < 256 := h b3 (by simp)
    have e1 := isBase64Char_sextetChar (b1 / 4) (by omega)
    have e2 := isBase64Char_sextetChar (b1 % 4 * 16 + b2 / 16) (by omega)
    have e3 := isBase64Char_sextetChar (b2 % 16 * 4 + b3 / 64) (by omega)
    have e4 := isBase64Char_sextetChar (b3 % 64) (by omega)
    have c1 := charSextet_sextetChar (b1 / 4) (by omega)
    have c2 := charSextet_sextetChar (b1 % 4 * 16 + b2 / 16) (by omega)
    have c3 := charSextet_sextetChar (b2 % 16 * 4 + b3 / 64) (by omega)
    have c4 := charSextet_sextetChar (b3 % 64) (by omega)
    simp only [encodeGroups, List.filter_cons, e1, e2, e3, e4, if_true, List.filter_nil,
      List.map_cons, List.map_nil, c1, c2, c3, c4, decodeSextets, List.cons.injEq, and_true]
    omega

/-- Node base64 decoding inverts encoding on byte lists. -/
theorem base64Decode_base64Encode (bs : List Nat) (h : ∀ b ∈ bs, b < 256) :
    base64Decode (base64Encode bs) = bs := by
  simpa [base64Decode, base64Encode] using decodeSextets_encodeGroups bs h

/- ## Locator lemmas -/

/-- Page boundaries do not matter: the paginated walk equals the scan of
the flattened newest-first history. -/
theorem locateFreezeLt_eq_scanHistory : ∀ pages : List (List Tx),
    locateFreezeLt pages = scanHistory pages.flatten
  | [] => rfl
  | batch :: pages => by
    induction batch with
    | nil => simpa [locateFreezeLt, scanBatch] using locateFreezeLt_eq_scanHistory pages
    | cons tx rest ihb =>
      by_cases h1 : tx.endStatus = "frozen"
      · by_cases h2 : tx.origStatus = "frozen"
        · have step : locateFreezeLt ((tx :: rest) :: pages) = locateFreezeLt (rest :: pages) := by
            simp only [locateFreezeLt, scanBatch, h1, h2]
            simp
          rw [step, ihb]
          simp [scanHistory, h1, h2]
        · simp [locateFreezeLt, scanBatch, scanHistory, h1, h2]
      · simp [locateFreezeLt, scanBatch, scanHistory, h1]

/-- A frozen-to-frozen block at the head of the history is scanned past
without effect. -/
theorem scanHistory_skips_frozen_block (pre : List Tx) (l : List Tx)
    (hpre : ∀ t ∈ pre, t.origStatus = "frozen" ∧ t.endStatus = "frozen") :
    scanHistory (pre ++ l) = scanHistory l := by
  induction pre with
  | nil => rfl
  | cons p pre ih =>
    have hp := hpre p (by simp)
    simpa [scanHistory, hp.1, hp.2] using ih (fun t ht => hpre t (by simp [ht]))

/-- A history made entirely of frozen-to-frozen transactions exhausts the
walk. -/
theorem scanHistory_all_frozen (l : List Tx)
    (h : ∀ t ∈ l, t.origStatus = "frozen" ∧ t.endStatus = "frozen") :
    scanHistory l = .error "Freeze transaction not found" := by
  simpa using scanHistory_skips_frozen_block l [] h

/- ## Claim C2: the locator returns the second record and stops -/

/-- Claim C2: whenever the flattened newest-first history starts with a
frozen-to-frozen record followed by a record with origin status `active`
(and end status frozen), `locateFreezeLt` returns the logical-time key of
that second record, whatever older transactions or further pages follow —
the walk stops entirely at the transition record. -/
theorem locate_returns_second_record (pages : List (List Tx)) (lt1 lt2 : String)
    (tail : List Tx)
    (hjoin : pages.flatten = ⟨lt1, "frozen", "frozen"⟩ :: ⟨lt2, "active", "frozen"⟩ :: tail) :
    locateFreezeLt pages = .ok lt2 := by
  rw [locateFreezeLt_eq_scanHistory, hjoin]
  rfl

/-- Witness for C2: a two-page history whose transition record sits on the
second page, followed by an older record that would abort the walk with
`Account not frozen` if it were examined — it is not. -/
theorem locate_returns_second_record_witness :
    locateFreezeLt
        [[⟨"7", "frozen", "frozen"⟩], [⟨"5", "active", "frozen"⟩, ⟨"3", "uninit", "active"⟩]]
      = .ok "5" :=
  locate_returns_second_record _ "7" "5" [⟨"3", "uninit", "active"⟩] rfl

/- ## Claim C3: locator failure modes -/

/-- Counterexample to C3 as stated: this account is never observed in a
non-frozen end-status transaction (its single transaction is
frozen-to-frozen), yet `locateFreezeLt` fails with
`Freeze transaction not found`, not with `Account not frozen`. -/
theorem locate_all_frozen_counterexample :
    locateFreezeLt [[⟨"9", "frozen", "frozen"⟩]] = .error "Freeze transaction not found" := rfl

/-- Claim C3 amended: the walk fails with `Account not frozen` exactly when
it observes a transaction with non-frozen END status (before any non-frozen
ORIGIN status); and when the paginated walk exhausts — every transaction in
the history being frozen-to-frozen — it fails with
`Freeze transaction not found`. -/
theorem locate_failure_modes :
    (∀ (pages : List (List Tx)) (pre : List Tx) (tx : Tx) (rest : List Tx),
        pages.flatten = pre ++ tx :: rest →
        (∀ t ∈ pre, t.origStatus = "frozen" ∧ t.endStatus = "frozen") →
        tx.endStatus ≠ "frozen" →
        locateFreezeLt pages = .error "Account not frozen")
    ∧ (∀ pages : List (List Tx),
        (∀ t ∈ pages.flatten, t.origStatus = "frozen" ∧ t.endStatus = "frozen") →
        locateFreezeLt pages = .error "Freeze transaction not found") := by
  constructor
  · intro pages pre tx rest hjoin hpre htx
    rw [locateFreezeLt_eq_scanHistory, hjoin, scanHistory_skips_frozen_block pre _ hpre]
    simp [scanHistory, htx]
  · intro pages h
    rw [locateFreezeLt_eq_scanHistory, scanHistory_all_frozen _ h]

/-- Witness for the amended C3: a non-frozen end status after a
frozen-to-frozen record aborts with `Account not frozen`; a two-page
all-frozen history exhausts with `Freeze transaction not found`. -/
theorem locate_failure_modes_witness :
    locateFreezeLt [[⟨"9", "frozen", "frozen"⟩, ⟨"8", "frozen", "active"⟩]]
        = .error "Account not frozen"
    ∧ locateFreezeLt [[⟨"6", "frozen", "frozen"⟩], [⟨"4", "frozen", "frozen"⟩]]
        = .error "Freeze transaction not found" :=
  ⟨locate_failure_modes.1 _ [⟨"9", "frozen", "frozen"⟩] ⟨"8", "frozen", "active"⟩ []
      rfl (by decide) (by decide),
   locate_failure_modes.2 _ (by decide)⟩

/- ## Claim C4: cache round trip -/

/-- Counterexample to C4 as stated: for the blob `"A"` (not a canonical
base64 encoding), `put` followed by `tryGet` with caching enabled returns
`""`, not the blob that was put — the file stores the decoded bytes and the
read re-encodes them, which is only the identity on canonical base64. -/
theorem cache_roundtrip_counterexample :
    Cache.tryGet (Cache.put (fun _ => none) "0:aa" "A") false "0:aa" = some ""
    ∧ ("" : String) ≠ "A" := by
  exact ⟨rfl, by decide⟩

/-- Claim C4 amended: for every blob that is the canonical base64 encoding
of a byte sequence — as every blob the reconstructor produces and the
pipeline caches is — `put` followed by `tryGet` with caching enabled
returns exactly that blob. -/
theorem cache_roundtrip_canonical (cache : Cache) (addr : Addr) (bytes : List Nat)
    (h : ∀ b ∈ bytes, b < 256) :
    Cache.tryGet (Cache.put cache addr (base64Encode bytes)) false addr
      = some (base64Encode bytes) := by
  simp [Cache.tryGet, Cache.put, base64Decode_base64Encode bytes h]

/-- Witness for the amended C4 at a concrete byte sequence. -/
theorem cache_roundtrip_canonical_witness :
    Cache.tryGet (Cache.put (fun _ => none) "0:aa" (base64Encode [0, 255, 77])) false "0:aa"
      = some (base64Encode [0, 255, 77]) :=
  cache_roundtrip_canonical (fun _ => none) "0:aa" [0, 255, 77] (by decide)

/- ## Concrete environments for witnesses and counterexamples -/

/-- A concrete environment: account `0:aa` exists and is frozen with a
one-transaction history whose freeze point is at logical time 5, the
archive service returns a payload decoding to the state blob `"AAAA"`, the
fee facility reports a null debt, and the relay submission fails for
destination `0:aa` but succeeds for any other destination. -/
def cEnv : Env where
  clockTimeMs := 0
  getFullContractState := fun a => if a = "0:aa" then some ⟨"boc", some "hash"⟩ else none
  computeStorageFee := fun _ _ _ => ⟨"frozen", none⟩
  pages := fun _ => [[⟨"5", "active", "frozen"⟩]]
  fetchApply := fun _ _ => .ok "fullstate"
  parseFullAccountStateInit := fun s => if s = "fullstate" then some "AAAA" else none
  send := fun dest _ _ => if dest = "0:aa" then .error "send failed" else .ok "txhash"
  loadKeys := fun _ => .ok "pubkey"
  readAddressList := fun _ => ["0:aa"]
  initialCache := fun _ => none

/-- Variant of `cEnv` with a fee facility reporting status `active` and a concrete
debt. -/
def cEnvActive : Env :=
  { cEnv with computeStorageFee := fun _ _ _ => ⟨"active", some "5"⟩ }

/-- An empty cache directory. -/
def emptyCache : Cache := fun _ => none

/-- A cache directory holding stale bytes for account `0:aa`. -/
def oldCache : Cache := fun a => if a = "0:aa" then some [1, 2, 3] else none

/- ## `applyState` helper -/

/-- When `applyState` succeeds, both the locator and the reconstructor
ran. -/
theorem applyState_ok_stages (env : Env) (a : Addr) (s : String)
    (h : (applyState env a).1 = .ok s) : (applyState env a).2 = [.locate, .reconstruct] := by
  unfold applyState at h ⊢
  repeat' split at h
  all_goals simp_all

/- ## Claim C5: behaviour with `ignoreCache` set -/

/-- Claim C5: with `ignoreCache` set, the cache read path reports absent
whatever the cache holds, the reconstruction path runs, and the write path
overwrites the entry for the address with the freshly reconstructed bytes;
the account record carries the fresh state. -/
theorem ignore_cache_behaviour (env : Env) (ts : Nat) (cache : Cache) (address : Addr)
    (accountState : ContractState) (state : String)
    (h1 : env.getFullContractState address = some accountState)
    (h2 : (env.computeStorageFee accountState (isMasterchain address) ts).accountStatus = "frozen"
        ∨ (env.computeStorageFee accountState (isMasterchain address) ts).accountStatus
            = "nonexist")
    (h3 : (applyState env address).1 = .ok state) :
    Cache.tryGet cache true address = none
    ∧ (prepareOne env true ts cache address).1
        = .ok ⟨address, state,
            (env.computeStorageFee accountState (isMasterchain address) ts).storageFeeDebt.getD
              "0"⟩
    ∧ (prepareOne env true ts cache address).2.1 address = some (base64Decode state)
    ∧ Stage.reconstruct ∈ (prepareOne env true ts cache address).2.2 := by
  have hstage := applyState_ok_stages env address state h3
  have hcond :
      ¬((env.computeStorageFee accountState (isMasterchain address) ts).accountStatus ≠ "frozen"
        ∧ (env.computeStorageFee accountState (isMasterchain address) ts).accountStatus
            ≠ "nonexist") := by
    rcases h2 with h | h <;> simp [h]
  refine ⟨rfl, ?_, ?_, ?_⟩ <;>
    simp [prepareOne, h1, hcond, Cache.tryGet, Cache.put, h3, hstage]

/-- Witness for C5: the stale cache entry for `0:aa` is ignored on read and
overwritten with the decoded bytes of the freshly reconstructed state. -/
theorem ignore_cache_behaviour_witness :
    Cache.tryGet oldCache true "0:aa" = none
    ∧ (prepareOne cEnv true 3600 oldCache "0:aa").1 = .ok ⟨"0:aa", "AAAA", "0"⟩
    ∧ (prepareOne cEnv true 3600 oldCache "0:aa").2.1 "0:aa" = some (base64Decode "AAAA")
    ∧ Stage.reconstruct ∈ (prepareOne cEnv true 3600 oldCache "0:aa").2.2 :=
  ignore_cache_behaviour cEnv 3600 oldCache "0:aa" ⟨"boc", some "hash"⟩ "AAAA" rfl
    (Or.inl rfl) rfl

/- ## Claim C8: debt-estimation stage behaviour -/

/-- Claim C8: if the fee facility reports an account status other than
`frozen` or `nonexist` at the reference timestamp, the per-account pipeline
fails with `Account is not frozen`; and whenever the facility returns a
null debt figure, any successful outcome carries the debt string `"0"`. -/
theorem debt_estimation_behaviour (env : Env) (ic : Bool) (ts : Nat) (cache : Cache)
    (address : Addr) :
    (∀ accountState, env.getFullContractState address = some accountState →
      (env.computeStorageFee accountState (isMasterchain address) ts).accountStatus ≠ "frozen" →
      (env.computeStorageFee accountState (isMasterchain address) ts).accountStatus
          ≠ "nonexist" →
      (prepareOne env ic ts cache address).1 = .error "Account is not frozen")
    ∧ (∀ accountState account, env.getFullContractState address = some accountState →
        (env.computeStorageFee accountState (isMasterchain address) ts).storageFeeDebt = none →
        (prepareOne env ic ts cache address).1 = .ok account →
        account.storageFeeDebt = "0") := by
  constructor
  · intro accountState h1 h2 h3
    simp [prepareOne, h1, h2, h3]
  · intro accountState account h1 hnull hok
    simp only [prepareOne, h1] at hok
    repeat' split at hok
    all_goals simp_all
    all_goals rw [← hok]

/-- Witness for C8: a reported status `active` fails the stage; the null
debt of `cEnv` surfaces as the debt string `"0"` in the prepared record. -/
theorem debt_estimation_behaviour_witness :
    (prepareOne cEnvActive false 3600 emptyCache "0:aa").1 = .error "Account is not frozen"
    ∧ FrozenAccount.storageFeeDebt ⟨"0:aa", "AAAA", "0"⟩ = "0" :=
  ⟨(debt_estimation_behaviour cEnvActive false 3600 emptyCache "0:aa").1 ⟨"boc", some "hash"⟩
      rfl (by decide) (by decide),
   (debt_estimation_behaviour cEnv false 3600 emptyCache "0:aa").2 ⟨"boc", some "hash"⟩
      ⟨"0:aa", "AAAA", "0"⟩ rfl rfl rfl⟩

/- ## Claim C9: order of the per-account stages -/

/-- Counterexample to C9 as stated: on a plain cache-miss success, the
recorded stage order starts with the contract-state fetch (not the cache
lookup), and the storage-debt estimation runs before the cache lookup and
before the reconstruction, not after it. -/
theorem stage_order_counterexample :
    (prepareOne cEnv false 3600 emptyCache "0:aa").2.2
        = [.fetchState, .estimateDebt, .cacheLookup, .locate, .reconstruct, .cacheStore]
    ∧ ((prepareOne cEnv false 3600 emptyCache "0:aa").2.2).head? ≠ some .cacheLookup
    ∧ List.indexOf Stage.estimateDebt ((prepareOne cEnv false 3600 emptyCache "0:aa").2.2)
        < List.indexOf Stage.cacheLookup ((prepareOne cEnv false 3600 emptyCache "0:aa").2.2)
    ∧ List.indexOf Stage.estimateDebt ((prepareOne cEnv false 3600 emptyCache "0:aa").2.2)
        < List.indexOf Stage.reconstruct ((prepareOne cEnv false 3600 emptyCache "0:aa").2.2) :=
  ⟨rfl, by decide, by decide, by decide⟩

/-- Claim C9 amended: on a cache miss that completes, the per-account
stages run in the order: contract-state fetch, storage-debt estimation,
cache lookup, freeze-point location, state reconstruction, cache store —
estimation precedes the cache lookup and the reconstruction. -/
theorem stage_order (env : Env) (ts : Nat) (cache : Cache) (address : Addr)
    (accountState : ContractState) (state : String)
    (h1 : env.getFullContractState address = some accountState)
    (h2 : (env.computeStorageFee accountState (isMasterchain address) ts).accountStatus = "frozen"
        ∨ (env.computeStorageFee accountState (isMasterchain address) ts).accountStatus
            = "nonexist")
    (h3 : cache address = none)
    (h4 : (applyState env address).1 = .ok state) :
    (prepareOne env false ts cache address).2.2
      = [.fetchState, .estimateDebt, .cacheLookup, .locate, .reconstruct, .cacheStore] := by
  have hstage := applyState_ok_stages env address state h4
  have hcond :
      ¬((env.computeStorageFee accountState (isMasterchain address) ts).accountStatus ≠ "frozen"
        ∧ (env.computeStorageFee accountState (isMasterchain address) ts).accountStatus
            ≠ "nonexist") := by
    rcases h2 with h | h <;> simp [h]
  simp [prepareOne, h1, hcond, Cache.tryGet, h3, h4, hstage]

/-- Witness for the amended C9 at the concrete environment. -/
theorem stage_order_witness :
    (prepareOne cEnv false 3600 emptyCache "0:aa").2.2
      = [.fetchState, .estimateDebt, .cacheLookup, .locate, .reconstruct, .cacheStore] :=
  stage_order cEnv 3600 emptyCache "0:aa" ⟨"boc", some "hash"⟩ "AAAA" rfl (Or.inl rfl) rfl rfl

/- ## Claim C1: failure isolation -/

/-- A failing `prepareOne` leaves the cache directory untouched (every
throw happens before the cache write). -/
theorem prepareOne_error_cache (env : Env) (ic : Bool) (ts : Nat) (cache : Cache)
    (address : Addr) (msg : String)
    (h : (prepareOne env ic ts cache address).1 = .error msg) :
    (prepareOne env ic ts cache address).2.1 = cache := by
  unfold prepareOne at h ⊢
  rcases hg : env.getFullContractState address with _ | st
  · rfl
  · simp only [hg] at h
    dsimp only
    by_cases hcond :
        (env.computeStorageFee st (isMasterchain address) ts).accountStatus ≠ "frozen"
        ∧ (env.computeStorageFee st (isMasterchain address) ts).accountStatus ≠ "nonexist"
    · rw [if_pos hcond]
    · rw [if_neg hcond] at h ⊢
      rcases ht : Cache.tryGet cache ic address with _ | cs
      · simp only [ht] at h
        dsimp only
        rcases ha : (applyState env address).1 with e | s
        · rfl
        · simp only [ha] at h
          simp at h
      · simp only [ht] at h
        simp at h

/-- Counterexample to C1 as stated: a failure at the redeploy/submission
stage is not caught — with two prepared accounts whose first submission
fails while the second would succeed, the unfreeze loop aborts with the
first account's error and never reaches the second. -/
theorem redeploy_failure_aborts_batch :
    unfreezeContracts cEnv "1000" [⟨"0:aa", "AAAA", "0"⟩, ⟨"0:bb", "AAAA", "0"⟩]
        = .error "send failed"
    ∧ cEnv.send "0:bb" "AAAA" (fundingAmount 0 1000) = .ok "txhash" :=
  ⟨rfl, rfl⟩

/-- Claim C1 amended: a failure at any stage of the prepare pipeline
(locate, reconstruct, cache, estimate) is caught, recorded with the
account's address and failure detail, and the loop proceeds to the next
address — every input address ends up either prepared or skipped; but a
failure at the redeploy/submission stage is not caught and aborts the rest
of the batch. -/
theorem per_account_isolation :
    (∀ (env : Env) (ic : Bool) (ts : Nat) (cache : Cache) (address : Addr)
        (rest : List Addr) (msg : String),
      (prepareOne env ic ts cache address).1 = .error msg →
      prepareGo env ic ts cache (address :: rest)
        = ⟨(prepareGo env ic ts cache rest).states, (prepareGo env ic ts cache rest).cache,
            (address, msg) :: (prepareGo env ic ts cache rest).skipped⟩)
    ∧ (∀ (env : Env) (ic : Bool) (ts : Nat) (cache : Cache) (accounts : List Addr),
        (prepareGo env ic ts cache accounts).states.length
          + (prepareGo env ic ts cache accounts).skipped.length = accounts.length)
    ∧ (∀ (env : Env) (targetBalance : String) (item : FrozenAccount)
        (rest : List FrozenAccount) (e : String),
        env.send item.address item.state
            (fundingAmount (parseBigNat item.storageFeeDebt) (parseBigNat targetBalance))
          = .error e →
        unfreezeContracts env targetBalance (item :: rest) = .error e) := by
  refine ⟨?_, ?_, ?_⟩
  · intro env ic ts cache address rest msg h
    have hc := prepareOne_error_cache env ic ts cache address msg h
    have hp : prepareOne env ic ts cache address
        = (.error msg, cache, (prepareOne env ic ts cache address).2.2) :=
      Prod.ext h (Prod.ext hc rfl)
    simp only [prepareGo]
    rw [hp]
  · intro env ic ts cache accounts
    induction accounts generalizing cache with
    | nil => simp [prepareGo]
    | cons a rest ih =>
      simp only [prepareGo]
      rcases hp : prepareOne env ic ts cache a with ⟨e | acc, cache1, tr⟩ <;>
        · have h2 := ih cache1
          dsimp only
          simp only [List.length_cons]
          omega
  · intro env targetBalance item rest e h
    unfold unfreezeContracts
    rw [h]

/-- Witness for the amended C1: an uninit account is skipped with its
address and message and the loop continues; every account of a two-address
batch is accounted for; a failing submission aborts the unfreeze loop. -/
theorem per_account_isolation_witness :
    prepareGo cEnv false 3600 emptyCache ["0:zz"]
        = ⟨(prepareGo cEnv false 3600 emptyCache []).states,
            (prepareGo cEnv false 3600 emptyCache []).cache,
            ("0:zz", "Account is uninit") :: (prepareGo cEnv false 3600 emptyCache []).skipped⟩
    ∧ (prepareGo cEnv false 3600 emptyCache ["0:zz", "0:aa"]).states.length
        + (prepareGo cEnv false 3600 emptyCache ["0:zz", "0:aa"]).skipped.length = 2
    ∧ unfreezeContracts cEnv "1000" [⟨"0:aa", "AAAA", "0"⟩] = .error "send failed" :=
  ⟨per_account_isolation.1 cEnv false 3600 emptyCache "0:zz" [] "Account is uninit" rfl,
   per_account_isolation.2.1 cEnv false 3600 emptyCache ["0:zz", "0:aa"],
   per_account_isolation.2.2 cEnv "1000" ⟨"0:aa", "AAAA", "0"⟩ [] "send failed" rfl⟩

/- ## Claim C7: funding-account resolver -/

/-- Claim C7: the resolver returns a capability for exactly the four
recognized code hashes, fails closed with `Unknown contract` on every other
hash, fails with `Giver account not found` when the account has no on-chain
state, and with `Giver account is uninit` when the state has no code
hash. -/
theorem giver_resolver_classification :
    (∀ (boc ch address publicKey : String),
      ch ≠ WALLET_V3_CODE_HASH → ch ≠ HIGHLOAD_WALLET_V2_CODE_HASH →
      ch ≠ EVER_WALLET_CODE_HASH → ch ≠ GIVER_CODE_HASH →
      guessGiverAccount (some ⟨boc, some ch⟩) address publicKey = .error "Unknown contract")
    ∧ (∀ (boc address publicKey : String),
      guessGiverAccount (some ⟨boc, some WALLET_V3_CODE_HASH⟩) address publicKey
          = .ok (.walletV3 address)
      ∧ guessGiverAccount (some ⟨boc, some HIGHLOAD_WALLET_V2_CODE_HASH⟩) address publicKey
          = .ok (.highloadWalletV2 address)
      ∧ guessGiverAccount (some ⟨boc, some EVER_WALLET_CODE_HASH⟩) address publicKey
          = .ok (.everWallet address)
      ∧ guessGiverAccount (some ⟨boc, some GIVER_CODE_HASH⟩) address publicKey
          = .ok (.giver address publicKey))
    ∧ (∀ address publicKey : String,
        guessGiverAccount none address publicKey = .error "Giver account not found")
    ∧ (∀ (boc address publicKey : String),
        guessGiverAccount (some ⟨boc, none⟩) address publicKey
          = .error "Giver account is uninit") := by
  refine ⟨?_, ?_, fun _ _ => rfl, fun _ _ _ => rfl⟩
  · intro boc ch address publicKey h1 h2 h3 h4
    simp [guessGiverAccount, h1, h2, h3, h4]
  · intro boc address publicKey
    exact ⟨rfl, rfl, rfl, rfl⟩

/-- Witness for C7: the empty string and an unlisted 64-hex-digit hash both
fail closed with `Unknown contract`. -/
theorem giver_resolver_classification_witness :
    guessGiverAccount (some ⟨"boc", some ""⟩) "0:aa" "pk" = .error "Unknown contract"
    ∧ guessGiverAccount
        (some ⟨"boc",
          some "0000000000000000000000000000000000000000000000000000000000000000"⟩)
        "0:aa" "pk" = .error "Unknown contract" :=
  ⟨giver_resolver_classification.1 "boc" "" "0:aa" "pk" (by decide) (by decide) (by decide)
      (by decide),
   giver_resolver_classification.1 "boc"
      "0000000000000000000000000000000000000000000000000000000000000000" "0:aa" "pk"
      (by decide) (by decide) (by decide) (by decide)⟩

/- ## Claim C10: giver-address validation -/

/-- Characterization of the address regex at the character-list level. -/
theorem checkAddrChars_iff (l : List Char) :
    checkAddrChars l = true ↔
      ∃ rest : List Char, (l = '-' :: '1' :: ':' :: rest ∨ l = '0' :: ':' :: rest)
        ∧ rest.length = 64 ∧ rest.all isHexDigitChar = true := by
  unfold checkAddrChars
  split
  · next rest =>
    simp [List.cons.injEq]
  · next rest =>
    simp [List.cons.injEq]
  · next h1 h2 =>
    simp only [Bool.false_eq_true, false_iff]
    rintro ⟨rest, (h | h), -, -⟩
    · exact h1 rest h
    · exact h2 rest h

/-- Theorem: `checkAddress` accepts exactly the addresses of the shape the
specification describes: workchain `-1` or `0`, a colon, and exactly 64
hexadecimal digits. -/
theorem checkAddress_iff_shape (s : String) : checkAddress s = true ↔ giverAddressShape s := by
  unfold checkAddress giverAddressShape
  rw [checkAddrChars_iff]
  constructor
  · rintro ⟨rest, hcase, hlen, hall⟩
    rcases hcase with h | h
    · refine ⟨"-1", String.mk rest, Or.inl rfl, ?_, hlen, hall⟩
      apply String.ext
      rw [h]
      rfl
    · refine ⟨"0", String.mk rest, Or.inr rfl, ?_, hlen, hall⟩
      apply String.ext
      rw [h]
      rfl
  · rintro ⟨wc, hex, hwc, hs, hlen, hall⟩
    subst hs
    rcases hwc with rfl | rfl
    · exact ⟨hex.data, Or.inl rfl, hlen, hall⟩
    · exact ⟨hex.data, Or.inr rfl, hlen, hall⟩

/-- Claim C10: the giver address is validated against the shape
`(-1|0):<64 hex digits>` during argument parsing, and any well-formed
invocation whose giver string fails the shape stops with the fatal error
`Invalid giver address` — for every environment, so before any credential
loading, network access or per-account processing. -/
theorem invalid_giver_rejected :
    (∀ s : String, checkAddress s = true ↔ giverAddressShape s)
    ∧ (∀ (env : Env) (args : Args) (pathArg g signArg : String),
        args.positional.head? = some pathArg →
        args.flags "giver" = some (.str g) →
        args.flags "sign" = some (.str signArg) →
        args.flags "ignore-cache" = none →
        checkAddress g = false →
        parseArgs args = .error "Invalid giver address"
        ∧ appRun env args = .error "Invalid giver address") := by
  refine ⟨checkAddress_iff_shape, ?_⟩
  intro env args pathArg g signArg h1 h2 h3 h4 h5
  have hp : parseArgs args = .error "Invalid giver address" := by
    simp only [parseArgs, parseSwitch, h4, h1, h2, h3, h5, if_true, eq_self_iff_true]
  exact ⟨hp, by simp only [appRun, hp]⟩

/-- Concrete CLI arguments whose giver address lives in workchain `1`. -/
def cArgs : Args where
  positional := ["accounts.csv"]
  flags := fun name =>
    if name = "giver" then
      some (.str "1:0000000000000000000000000000000000000000000000000000000000000000")
    else if name = "sign" then some (.str "keys.json")
    else none

/-- Witness for C10: a workchain-1 giver address is rejected with
`Invalid giver address` by `parseArgs` and by the whole run, in the
concrete environment. -/
theorem invalid_giver_rejected_witness :
    (checkAddress "0:0000000000000000000000000000000000000000000000000000000000000000" = true
      ↔ giverAddressShape
          "0:0000000000000000000000000000000000000000000000000000000000000000")
    ∧ parseArgs cArgs = .error "Invalid giver address"
    ∧ appRun cEnv cArgs = .error "Invalid giver address" :=
  ⟨invalid_giver_rejected.1 _,
   (invalid_giver_rejected.2 cEnv cArgs "accounts.csv"
      "1:0000000000000000000000000000000000000000000000000000000000000000" "keys.json"
      rfl rfl rfl rfl rfl).1,
   (invalid_giver_rejected.2 cEnv cArgs "accounts.csv"
      "1:0000000000000000000000000000000000000000000000000000000000000000" "keys.json"
      rfl rfl rfl rfl rfl).2⟩
